import Mathlib

/-!
Verification development for the FarmTrace repository: an EUDR-compliance
platform combining a Solana/Anchor ledger program (farm plots, harvest
batches, verification records) with an off-ledger oracle pipeline
(Google Earth Engine imagery, LLM deforestation verdict, on-chain commit).

The definitions below are shallow embeddings of the repository's code:
- byte-level PDA seed derivation from the frontend component and the test
  suite (`farmPlotPDA`, `verificationPDA`, and the test's seed layout);
- the backend oracle pipeline `triggerValidation` with its stage structure,
  LLM response parsing (JSON parse with code-fence cleaning, then regex
  fallback), and JS truthiness semantics;
- the intake HTTP handler of the backend server;
- the ledger account model.  The on-chain Anchor program itself (lib.rs)
  is not part of the available sources; its instructions are modelled from
  the specification, the IDL declaration (`farmtrace.d.ts`), and the
  post-state assertions of the repository's test suite (`farmtrace.js`),
  as documented on each definition.
-/

set_option maxHeartbeats 1000000

/-! ### Byte-level PDA seed derivation (frontend `FarmTraceApp.tsx` and test suite)

A Solana PDA is a hash of a list of seed byte-arrays.  The hash itself is
collision-resistant but not provably injective, so addresses are modelled
at the seed level: a derivation is the list of seed byte-arrays handed to
`findProgramAddressSync`.  Two derivations collide exactly when their seed
lists are equal. -/

/-- Bytes of a JS string as produced by `Buffer.from` (code points; the
ids and tags in the sources are ASCII). -/
def strBytes (s : String) : List Nat := s.toList.map Char.toNat

/-- `new BN(t).toArray("le", 8)`: 8-byte little-endian encoding used by the
frontend `verificationPDA` helper for the timestamp seed. -/
def bnToArrayLE8 (t : Nat) : List Nat :=
  [t % 256, t / 256 % 256, t / 256 ^ 2 % 256, t / 256 ^ 3 % 256,
   t / 256 ^ 4 % 256, t / 256 ^ 5 % 256, t / 256 ^ 6 % 256, t / 256 ^ 7 % 256]

/-- Decoder for `bnToArrayLE8`, used to prove its injectivity below 2^64. -/
def ofLE8 : List Nat → Nat
  | [b0, b1, b2, b3, b4, b5, b6, b7] =>
      b0 + 256 * b1 + 256 ^ 2 * b2 + 256 ^ 3 * b3 + 256 ^ 4 * b4 +
        256 ^ 5 * b5 + 256 ^ 6 * b6 + 256 ^ 7 * b7
  | _ => 0

/-- Seeds of `farmPlotPDA(plotId, farmerPubkey)` in `FarmTraceApp.tsx`:
`["farm_plot", plotId, farmerPubkey]`. -/
def farmPlotSeeds (plotId : String) (farmer : List Nat) : List (List Nat) :=
  [strBytes "farm_plot", strBytes plotId, farmer]

/-- Seeds of `harvestBatchPDA(batchId, farmerPubkey)` in `FarmTraceApp.tsx`. -/
def harvestBatchSeeds (batchId : String) (farmer : List Nat) : List (List Nat) :=
  [strBytes "harvest_batch", strBytes batchId, farmer]

/-- Seeds of `verificationPDA(farmPlotKey, verifierKey, timestamp)` in
`FarmTraceApp.tsx`: the timestamp seed is `new BN(timestamp).toArray("le", 8)`. -/
def verificationSeeds (farmPlotKey verifier : List Nat) (timestamp : Nat) :
    List (List Nat) :=
  [strBytes "verification", farmPlotKey, verifier, bnToArrayLE8 timestamp]

/-- Seeds of the verification PDA as derived in the test suite
(`farmtrace.js`): the timestamp seed is
`Buffer.from(timestamp.toString().slice(0, 8))` — the first 8 decimal
digits of the timestamp. -/
def verificationSeedsTest (farmPlotKey verifier : List Nat) (timestamp : Nat) :
    List (List Nat) :=
  [strBytes "verification", farmPlotKey, verifier,
   strBytes ((toString timestamp).take 8)]

theorem strBytes_injective : Function.Injective strBytes := by
  intro s t h
  have hinj : Function.Injective Char.toNat := by
    intro a b hab
    have hval : a.val.toNat = b.val.toNat := by simpa [Char.toNat] using hab
    exact Char.ext (UInt32.ext hval)
  have hlist : s.toList = t.toList := List.map_injective_iff.mpr hinj h
  cases s; cases t
  exact congrArg String.mk (by simpa [String.toList] using hlist)

theorem ofLE8_bnToArrayLE8 (t : Nat) (h : t < 2 ^ 64) :
    ofLE8 (bnToArrayLE8 t) = t := by
  simp only [bnToArrayLE8, ofLE8]
  omega

theorem bnToArrayLE8_injOn {t t' : Nat} (ht : t < 2 ^ 64) (ht' : t' < 2 ^ 64)
    (h : bnToArrayLE8 t = bnToArrayLE8 t') : t = t' := by
  have := congrArg ofLE8 h
  rwa [ofLE8_bnToArrayLE8 t ht, ofLE8_bnToArrayLE8 t' ht'] at this

/-! ### Ledger account model

The on-chain Anchor program (`lib.rs`) is not among the available sources;
only its IDL declaration (`src/backend/src/types/farmtrace.d.ts`) and the
test suite (`src/tests/farmtrace.js`) are.  The instruction handlers below
are therefore modelled from the specification, constrained by the IDL's
account/argument/error declarations and by the tests' post-state
assertions, as noted on each definition.  Account addresses are abstracted
as an inductive type: the specification treats hash-based derivation as
injective ("deterministic, collision-resistant"), which constructor
injectivity captures exactly. -/

/-- Identity key (a Solana public key, abstracted). -/
abbrev PubKey := Nat

/-- Deforestation risk tier of a plot (IDL enum `DeforestationRisk`). -/
inductive DeforestationRisk
  | low
  | medium
  | high
  deriving DecidableEq, Repr

/-- Commodity of a plot (IDL enum `CommodityType`). -/
inductive CommodityType
  | cocoa
  | coffee
  | palmOil
  | soy
  | cattle
  | rubber
  | timber
  deriving DecidableEq, Repr

/-- Supply-chain stage of a batch (IDL enum `BatchStatus`). -/
inductive BatchStatus
  | harvested
  | processing
  | inTransit
  | delivered
  deriving DecidableEq, Repr

/-- Position of a batch status in the ordered progression
Harvested → Processing → InTransit → Delivered. -/
def BatchStatus.idx : BatchStatus → Nat
  | .harvested => 0
  | .processing => 1
  | .inTransit => 2
  | .delivered => 3

/-- Compliance standing of a batch (IDL enum `ComplianceStatus`). -/
inductive ComplianceStatus
  | compliant
  | pendingReview
  | nonCompliant
  deriving DecidableEq, Repr

/-- Structured errors of the ledger program, from the IDL error table and
the specification's error taxonomy (§7). -/
inductive FtError
  | plotIdTooLong
  | batchIdTooLong
  | invalidArea
  | invalidWeight
  | destinationTooLong
  | duplicateAccount
  | notFound
  | unauthorized
  deriving DecidableEq, Repr

/-- Deterministic account address.  Modelled from the spec: `derive` maps
(namespace tag, entity id, owner identity) — and for verification records
(namespace, plot address, verifier, timestamp) — to a unique address;
hash collision-resistance is abstracted as constructor injectivity. -/
inductive Addr
  | farmPlot (plotId : String) (farmer : PubKey)
  | harvestBatch (batchId : String) (farmer : PubKey)
  | verification (plotId : String) (farmer : PubKey) (verifier : PubKey)
      (timestamp : Int)
  deriving DecidableEq, Repr

/-- Plot account (IDL account `FarmPlot`; the boundary commitment field is
called `coordinates` in the tests and frontend, `polygonHash` in the IDL). -/
structure FarmPlot where
  plotId : String
  farmer : PubKey
  farmerName : String
  location : String
  coordinates : String
  areaHectares : Rat
  commodityType : CommodityType
  registrationTimestamp : Int
  deforestationRisk : DeforestationRisk
  complianceScore : Nat
  lastVerified : Int
  isActive : Bool
  isValidated : Bool
  validator : PubKey
  deriving DecidableEq, Repr

/-- Batch account (IDL account `HarvestBatch`). -/
structure HarvestBatch where
  batchId : String
  farmPlot : Addr
  farmer : PubKey
  weightKg : Nat
  harvestTimestamp : Int
  commodityType : CommodityType
  status : BatchStatus
  complianceStatus : ComplianceStatus
  destination : String
  deriving DecidableEq, Repr

/-- Verification record account (the tests' `satelliteVerification`). -/
structure SatelliteVerification where
  verificationHash : String
  noDeforestation : Bool
  recordedAt : Int
  deriving DecidableEq, Repr

/-- DDS report returned by `generateDdsData` (IDL type `DDSReport`). -/
structure DDSReport where
  batchId : String
  plotId : String
  farmer : PubKey
  coordinates : String
  commodityType : CommodityType
  harvestTimestamp : Int
  weightKg : Nat
  noDeforestationVerified : Bool
  complianceScore : Nat
  lastVerified : Int
  registrationTimestamp : Int
  deriving DecidableEq, Repr

/-- Ledger state: accounts keyed by their derived address. -/
structure Ledger where
  plots : List (Addr × FarmPlot)
  batches : List (Addr × HarvestBatch)
  verifications : List (Addr × SatelliteVerification)
  deriving DecidableEq, Repr

/-- Look up an account by address (first binding; insertion keeps at most
one binding per address). -/
def lookupAcc {α : Type} : List (Addr × α) → Addr → Option α
  | [], _ => none
  | (b, v) :: rest, a => if b = a then some v else lookupAcc rest a

/-- Replace the binding of an existing address. -/
def setAcc {α : Type} (l : List (Addr × α)) (a : Addr) (v : α) :
    List (Addr × α) :=
  l.map (fun p => if p.1 = a then (a, v) else p)

/-- Maximum id length enforced by the program (IDL errors `PlotIdTooLong`
and `BatchIdTooLong`: "max 32 characters"). -/
def maxIdLen : Nat := 32

/-- Modelled from the spec: the `registerFarmPlot` instruction handler of
the missing on-chain program (spec §4.2 `registerPlot`), with argument
order from the IDL.  Checks: id length bound (`PlotIdTooLong`), positive
area (`InvalidArea`), no existing account at the derived address
(`DuplicateAccount`).  Initial field values follow the repository's test
suite, which asserts `complianceScore == 100`, `deforestationRisk == Low`
and `isActive == true` immediately after registration (farmtrace.js), and
the spec's `isValidated = false` default; `lastVerified` starts at the
registration timestamp. -/
def registerFarmPlot (st : Ledger) (farmer : PubKey) (validator : PubKey)
    (plotId farmerName location coordinates : String) (areaHectares : Rat)
    (commodityType : CommodityType) (registrationTimestamp : Int) :
    Except FtError Ledger :=
  if plotId.length > maxIdLen then .error .plotIdTooLong
  else if areaHectares ≤ 0 then .error .invalidArea
  else if (lookupAcc st.plots (.farmPlot plotId farmer)).isSome then
    .error .duplicateAccount
  else
    .ok { st with
      plots := (Addr.farmPlot plotId farmer,
        { plotId := plotId
          farmer := farmer
          farmerName := farmerName
          location := location
          coordinates := coordinates
          areaHectares := areaHectares
          commodityType := commodityType
          registrationTimestamp := registrationTimestamp
          deforestationRisk := .low
          complianceScore := 100
          lastVerified := registrationTimestamp
          isActive := true
          isValidated := false
          validator := validator }) :: st.plots }

/-- Modelled from the spec: the `validateFarmPlot` instruction handler of
the missing on-chain program (spec §4.2 `validatePlot`; IDL: `validator`
is a signer with `relations: ['farmPlot']`, i.e. it must equal the key
stored on the plot).  Sets `isValidated := true` when the signer matches
the stored validator authority, fails `Unauthorized` otherwise; the state
is returned unchanged on every failure. -/
def validateFarmPlot (st : Ledger) (plotAddr : Addr) (signer : PubKey) :
    Ledger × Option FtError :=
  match lookupAcc st.plots plotAddr with
  | none => (st, some .notFound)
  | some p =>
    if signer = p.validator then
      ({ st with plots := setAcc st.plots plotAddr { p with isValidated := true } },
        none)
    else (st, some .unauthorized)

/-- Modelled from the spec: the `recordSatelliteVerification` instruction
handler of the missing on-chain program (spec §4.2 `recordVerification`).
Creates the verification record at its derived address (failing
`DuplicateAccount` if that exact (plot, verifier, timestamp) record
exists) and, in the same returned state, rewrites the referenced plot:
`noDeforestation = true` sets risk Low / score 100, `false` sets risk
High / score 0, and `lastVerified` becomes the verification timestamp —
exactly the post-states asserted by the test suite.  The tests show no
signer restriction (the farmer itself verifies successfully), so none is
modelled. -/
def recordSatelliteVerification (st : Ledger) (plotId : String)
    (farmer : PubKey) (verifier : PubKey) (verificationHash : String)
    (noDeforestation : Bool) (timestamp : Int) : Except FtError Ledger :=
  let plotAddr := Addr.farmPlot plotId farmer
  let verifAddr := Addr.verification plotId farmer verifier timestamp
  match lookupAcc st.plots plotAddr with
  | none => .error .notFound
  | some p =>
    if (lookupAcc st.verifications verifAddr).isSome then
      .error .duplicateAccount
    else
      .ok { st with
        plots := setAcc st.plots plotAddr
          { p with
            deforestationRisk := if noDeforestation then .low else .high
            complianceScore := if noDeforestation then 100 else 0
            lastVerified := timestamp }
        verifications := (verifAddr,
          { verificationHash := verificationHash
            noDeforestation := noDeforestation
            recordedAt := timestamp }) :: st.verifications }

/-- Bound on the destination string (IDL error `DestinationTooLong`; the
exact numeric bound is not in the available sources, so a symbolic
constant is used). -/
def destinationMaxLen : Nat := 64

/-- Modelled from the spec: the `updateBatchStatus` instruction handler of
the missing on-chain program (spec §4.2 `updateStatus`: "Sets `status` and
`destination`", failing `DestinationTooLong` over the bound; the IDL binds
the signing `authority` into the batch PDA seeds, so the signer must be
the batch owner).  The IDL declares no error for an out-of-order
transition and the spec (§9) records that no ordering guard was
observable, so the requested status is written unconditionally. -/
def updateBatchStatus (st : Ledger) (batchId : String) (authority : PubKey)
    (newStatus : BatchStatus) (destination : String) : Except FtError Ledger :=
  let batchAddr := Addr.harvestBatch batchId authority
  match lookupAcc st.batches batchAddr with
  | none => .error .notFound
  | some b =>
    if destination.length > destinationMaxLen then .error .destinationTooLong
    else
      .ok { st with
        batches := setAcc st.batches batchAddr
          { b with status := newStatus, destination := destination } }

/-- Modelled from the spec: the `generateDdsData` instruction handler of
the missing on-chain program (spec §4.4 `generateReport`): a pure read
that joins one batch and one plot into a `DDSReport`, failing `NotFound`
when either address does not resolve.  `noDeforestationVerified` is
derived from the plot's current risk being Low (spec §4.4); the remaining
fields copy the source accounts, as the tests assert. -/
def generateDdsData (st : Ledger) (batchAddr plotAddr : Addr) :
    Except FtError DDSReport :=
  match lookupAcc st.batches batchAddr, lookupAcc st.plots plotAddr with
  | some b, some p =>
    .ok { batchId := b.batchId
          plotId := p.plotId
          farmer := p.farmer
          coordinates := p.coordinates
          commodityType := p.commodityType
          harvestTimestamp := b.harvestTimestamp
          weightKg := b.weightKg
          noDeforestationVerified := p.deforestationRisk = .low
          complianceScore := p.complianceScore
          lastVerified := p.lastVerified
          registrationTimestamp := p.registrationTimestamp }
  | _, _ => .error .notFound

/-! ### JS string and JSON model

The LLM verdict parser in `validationService.ts` (`detectDeforestation`)
cleans the response text of code-fence markers, runs `JSON.parse`, and on
failure falls back to two regex extractions.  The model below embeds:
JS string `replace`/`trim`, the ECMA-404 JSON grammar accepted by
`JSON.parse` (numbers kept as lexemes — no claim inspects numeric
values), JS property access (`undefined` for a missing key, a TypeError
on `null`), the two regex patterns, and JS truthiness. -/

/-- Opening brace character. -/
def lbrace : Char := Char.ofNat 123

/-- Closing brace character. -/
def rbrace : Char := Char.ofNat 125

/-- JSON whitespace (ECMA-404): space, tab, line feed, carriage return. -/
def jsonWs (c : Char) : Bool :=
  c == ' ' || c == '\t' || c == '\n' || c == '\r'

/-- JS whitespace as matched by regex `\s` and stripped by `trim`
(the ASCII members; the exotic Unicode spaces do not occur here). -/
def jsWsChar (c : Char) : Bool :=
  c == ' ' || c == '\t' || c == '\n' || c == '\r' ||
    c == Char.ofNat 11 || c == Char.ofNat 12

/-- A parsed JSON value.  Numbers are kept as their source lexeme: the
code under verification never computes with them. -/
inductive Json
  | null
  | bool (b : Bool)
  | num (lit : String)
  | str (s : String)
  | arr (elems : List Json)
  | obj (fields : List (String × Json))
  deriving Repr

/-- One char-at-a-time replacement pass, as JS `replace(/pat/g, rep)` on a
fixed pattern: scan left to right, substituting each non-overlapping
occurrence.  Fuel is the input length (the pattern is nonempty). -/
def replaceAllAux (pat rep : List Char) : Nat → List Char → List Char
  | 0, s => s
  | _ + 1, [] => []
  | fuel + 1, c :: rest =>
    if pat.isPrefixOf (c :: rest) then
      rep ++ replaceAllAux pat rep fuel ((c :: rest).drop pat.length)
    else c :: replaceAllAux pat rep fuel rest

/-- JS `s.replace(/pat/g, rep)` for a literal pattern. -/
def jsReplaceAll (s pat rep : String) : String :=
  if pat.isEmpty then s
  else ⟨replaceAllAux pat.toList rep.toList s.toList.length s.toList⟩

/-- JS `s.trim()`. -/
def jsTrim (s : String) : String :=
  ⟨((s.toList.dropWhile jsWsChar).reverse.dropWhile jsWsChar).reverse⟩

/-- The response cleaning in `detectDeforestation`:
`text.replace(/` then `json/g, '').replace(/` backticks `/g, '').trim()`. -/
def cleanLlmText (text : String) : String :=
  jsTrim (jsReplaceAll (jsReplaceAll text "```json" "") "```" "")

/-- Value of a hexadecimal digit. -/
def hexVal (c : Char) : Option Nat :=
  if c.isDigit then some (c.toNat - 48)
  else if 'a' ≤ c && c ≤ 'f' then some (c.toNat - 87)
  else if 'A' ≤ c && c ≤ 'F' then some (c.toNat - 55)
  else none

/-- Skip JSON whitespace. -/
def skipJsonWs (s : List Char) : List Char := s.dropWhile jsonWs

/-- Parse the body of a JSON string after the opening quote, handling the
escape sequences accepted by `JSON.parse` and rejecting raw control
characters (surrogate-pair recombination is not modelled: a `\uXXXX`
escape maps through `Char.ofNat`). -/
def pStrChars : Nat → List Char → Option (List Char × List Char)
  | 0, _ => none
  | _ + 1, [] => none
  | fuel + 1, c :: rest =>
    if c == '"' then some ([], rest)
    else if c == '\\' then
      match rest with
      | [] => none
      | e :: rest2 =>
        let cont (ch : Char) (r : List Char) : Option (List Char × List Char) :=
          (pStrChars fuel r).map (fun p => (ch :: p.1, p.2))
        if e == '"' then cont '"' rest2
        else if e == '\\' then cont '\\' rest2
        else if e == '/' then cont '/' rest2
        else if e == 'b' then cont (Char.ofNat 8) rest2
        else if e == 'f' then cont (Char.ofNat 12) rest2
        else if e == 'n' then cont '\n' rest2
        else if e == 'r' then cont '\r' rest2
        else if e == 't' then cont '\t' rest2
        else if e == 'u' then
          match rest2 with
          | h1 :: h2 :: h3 :: h4 :: rest3 =>
            match hexVal h1, hexVal h2, hexVal h3, hexVal h4 with
            | some a, some b, some c2, some d =>
                cont (Char.ofNat (a * 4096 + b * 256 + c2 * 16 + d)) rest3
            | _, _, _, _ => none
          | _ => none
        else none
    else if c.toNat < 32 then none
    else (pStrChars fuel rest).map (fun p => (c :: p.1, p.2))

/-- Split off the leading decimal digits. -/
def takeDigits : List Char → List Char × List Char
  | [] => ([], [])
  | c :: rest =>
    if c.isDigit then
      let p := takeDigits rest
      (c :: p.1, p.2)
    else ([], c :: rest)

/-- Lex a JSON number (`-? int frac? exp?`), returning its lexeme. -/
def pNumber (s : List Char) : Option (List Char × List Char) :=
  let (sign, s1) := match s with
    | '-' :: r => (['-'], r)
    | _ => (([] : List Char), s)
  match s1 with
  | [] => none
  | c :: rest =>
    if !c.isDigit then none
    else
      let (ip, s2) :=
        if c == '0' then ([c], rest)
        else
          let p := takeDigits rest
          (c :: p.1, p.2)
      let (fp, s3) := match s2 with
        | '.' :: r =>
          let p := takeDigits r
          if p.1.isEmpty then ([], '.' :: r) else ('.' :: p.1, p.2)
        | r => ([], r)
      let fracOk := match s2 with
        | '.' :: r => !(takeDigits r).1.isEmpty
        | _ => true
      if !fracOk then none
      else
        let (ep, s4) := match s3 with
          | e :: r =>
            if e == 'e' || e == 'E' then
              let (sgn, r2) := match r with
                | '+' :: r3 => (['+'], r3)
                | '-' :: r3 => (['-'], r3)
                | r3 => (([] : List Char), r3)
              let p := takeDigits r2
              if p.1.isEmpty then (([] : List Char), s3)
              else (e :: (sgn ++ p.1), p.2)
            else ([], s3)
          | [] => ([], s3)
        let expOk := match s3 with
          | e :: r =>
            if e == 'e' || e == 'E' then
              let r2 := match r with
                | '+' :: r3 => r3
                | '-' :: r3 => r3
                | r3 => r3
              !(takeDigits r2).1.isEmpty
            else true
          | [] => true
        if !expOk then none
        else some (sign ++ ip ++ fp ++ ep, s4)

/-- Match a fixed literal continuation (for `true` / `false` / `null`). -/
def matchToken (pat s : List Char) : Option (List Char) :=
  if pat.isPrefixOf s then some (s.drop pat.length) else none

mutual

/-- Parse one JSON value after skipping leading whitespace.  Fuel-indexed;
`Json.parse` supplies fuel `2 * (length + 1)`, which every cycle of the
grammar strictly consumes against. -/
def pVal : Nat → List Char → Option (Json × List Char)
  | 0, _ => none
  | fuel + 1, s =>
    match skipJsonWs s with
    | [] => none
    | c :: rest =>
      if c == lbrace then
        match skipJsonWs rest with
        | [] => none
        | d :: rest2 =>
          if d == rbrace then some (.obj [], rest2)
          else
            match pMembers fuel (d :: rest2) with
            | some (fs, r) => some (.obj fs, r)
            | none => none
      else if c == '[' then
        match skipJsonWs rest with
        | [] => none
        | d :: rest2 =>
          if d == ']' then some (.arr [], rest2)
          else
            match pElems fuel (d :: rest2) with
            | some (vs, r) => some (.arr vs, r)
            | none => none
      else if c == '"' then
        match pStrChars (fuel + 1) rest with
        | some (cs, r) => some (.str ⟨cs⟩, r)
        | none => none
      else if c == 't' then
        match matchToken ("rue".toList) rest with
        | some r => some (.bool true, r)
        | none => none
      else if c == 'f' then
        match matchToken ("alse".toList) rest with
        | some r => some (.bool false, r)
        | none => none
      else if c == 'n' then
        match matchToken ("ull".toList) rest with
        | some r => some (.null, r)
        | none => none
      else
        match pNumber (c :: rest) with
        | some (lit, r) => some (.num ⟨lit⟩, r)
        | none => none

/-- Parse the members of a nonempty JSON object (input starts at the first
key), up to and including the closing brace. -/
def pMembers : Nat → List Char → Option (List (String × Json) × List Char)
  | 0, _ => none
  | fuel + 1, s =>
    match s with
    | '"' :: rest =>
      match pStrChars (fuel + 1) rest with
      | none => none
      | some (key, rest2) =>
        match skipJsonWs rest2 with
        | ':' :: rest3 =>
          match pVal fuel rest3 with
          | none => none
          | some (v, rest4) =>
            match skipJsonWs rest4 with
            | [] => none
            | d :: rest5 =>
              if d == ',' then
                match skipJsonWs rest5 with
                | [] => none
                | d2 :: rest6 =>
                  match pMembers fuel (d2 :: rest6) with
                  | some (fs, r) => some ((⟨key⟩, v) :: fs, r)
                  | none => none
              else if d == rbrace then some ([(⟨key⟩, v)], rest5)
              else none
        | _ => none
    | _ => none

/-- Parse the elements of a nonempty JSON array, up to and including the
closing bracket. -/
def pElems : Nat → List Char → Option (List Json × List Char)
  | 0, _ => none
  | fuel + 1, s =>
    match pVal fuel s with
    | none => none
    | some (v, rest) =>
      match skipJsonWs rest with
      | [] => none
      | d :: rest2 =>
        if d == ',' then
          match pElems fuel rest2 with
          | some (vs, r) => some (v :: vs, r)
          | none => none
        else if d == ']' then some ([v], rest2)
        else none

end

/-- `JSON.parse`: one value surrounded by whitespace, nothing trailing;
`none` models the thrown `SyntaxError`. -/
def Json.parse (text : String) : Option Json :=
  let s := text.toList
  match pVal (2 * (s.length + 1)) s with
  | some (v, rest) => if (skipJsonWs rest).isEmpty then some v else none
  | none => none

/-- Last binding of a key in an object's field list: `JSON.parse` keeps
the last duplicate key, so JS property access sees the last binding. -/
def lookupLastField (fs : List (String × Json)) (k : String) : Option Json :=
  fs.foldl (fun acc p => if p.1 = k then some p.2 else acc) none

/-- Errors of the verdict parse in `detectDeforestation`: the thrown
"LLM response not in expected JSON format and regex extraction failed."
and the TypeError raised by reading a property of `null`. -/
inductive VerdictErr
  | unparseable
  | typeError
  deriving DecidableEq, Repr

/-- A JS expression value: a JSON value or `undefined`. -/
inductive JsOut
  | val (j : Json)
  | undefined
  deriving Repr

/-- JS property access `v.k` as performed by
`parsedResponse.deforestationDetected`: a TypeError on `null`, the last
binding on objects, `undefined` otherwise. -/
def getProp (v : Json) (k : String) : Except VerdictErr JsOut :=
  match v with
  | .null => .error .typeError
  | .obj fs =>
    .ok (match lookupLastField fs k with
      | some j => .val j
      | none => .undefined)
  | _ => .ok .undefined

/-- Greedy `\s*`. -/
def skipWsGreedy (s : List Char) : List Char := s.dropWhile jsWsChar

/-- Try the pattern `"deforestationDetected":\s*(true|false)` at the start
of `s`, returning the captured literal. -/
def matchDefoAt (s : List Char) : Option String :=
  match matchToken ("\"deforestationDetected\":".toList) s with
  | none => none
  | some r =>
    let r2 := skipWsGreedy r
    if ("true".toList).isPrefixOf r2 then some "true"
    else if ("false".toList).isPrefixOf r2 then some "false"
    else none

/-- Leftmost-match scan: try the matcher at every position, left to
right, as an unanchored JS regex does. -/
def scanFirst {α : Type} (f : List Char → Option α) : List Char → Option α
  | [] => f []
  | c :: rest =>
    match f (c :: rest) with
    | some a => some a
    | none => scanFirst f rest

/-- `text.match(/"deforestationDetected":\s*(true|false)/)`, reduced to
its first capture group. -/
def deforestationMatch (text : String) : Option String :=
  scanFirst matchDefoAt text.toList

/-- Lazily capture `(.*?)` up to a closing quote; `.` matches no line
terminator, so a newline before the quote fails the position. -/
def captureUntilQuote : List Char → Option (List Char)
  | [] => none
  | c :: rest =>
    if c == '"' then some []
    else if c == '\n' || c == '\r' then none
    else (captureUntilQuote rest).map (c :: ·)

/-- Try the pattern `"explanation":\s*"(.*?)"` at the start of `s`,
returning the captured group. -/
def matchExplAt (s : List Char) : Option String :=
  match matchToken ("\"explanation\":".toList) s with
  | none => none
  | some r =>
    match skipWsGreedy r with
    | '"' :: r2 => (captureUntilQuote r2).map (fun cs => ⟨cs⟩)
    | _ => none

/-- `text.match(/"explanation":\s*"(.*?)"/)`, reduced to its first
capture group. -/
def explanationMatch (text : String) : Option String :=
  scanFirst matchExplAt text.toList

/-- The verdict-parsing portion of `detectDeforestation`
(`validationService.ts`): clean the text and `JSON.parse` it; on a parse
failure, fall back to the two regex extractions (on the original text)
and use them only when both match; otherwise throw.  The final
`parsedResponse.deforestationDetected` property read is included. -/
def llmParse (text : String) : Except VerdictErr JsOut :=
  match Json.parse (cleanLlmText text) with
  | some v => getProp v "deforestationDetected"
  | none =>
    match deforestationMatch text, explanationMatch text with
    | some w, some _e => .ok (.val (.bool (w == "true")))
    | _, _ => .error .unparseable

/-- Whether a JSON number lexeme denotes zero: no nonzero digit in the
mantissa (denormal underflow of tiny nonzero literals is not modelled). -/
def numLitIsZero (lit : String) : Bool :=
  (lit.toList.takeWhile (fun c => c != 'e' && c != 'E')).all
    (fun c => !c.isDigit || c == '0')

/-- JS truthiness of a value, as tested by `if (!isDeforestationDetected)`. -/
def jsFalsy : JsOut → Bool
  | .undefined => true
  | .val .null => true
  | .val (.bool b) => !b
  | .val (.num lit) => numLitIsZero lit
  | .val (.str s) => s.isEmpty
  | .val (.arr _) => false
  | .val (.obj _) => false

example :
    llmParse "\x7b\"deforestationDetected\": false, \"explanation\": \"ok\"\x7d" =
      .ok (.val (.bool false)) := by
  rfl

example :
    llmParse "```json\n\x7b\"deforestationDetected\": true, \"explanation\": \"loss\"\x7d\n```" =
      .ok (.val (.bool true)) := by
  rfl

example :
    llmParse "verdict: \"deforestationDetected\": false and \"explanation\": \"fine\" end" =
      .ok (.val (.bool false)) := by
  rfl

example : llmParse "no json here" = .error .unparseable := by rfl

example : llmParse "\x7b\"a\": 1\x7d" = .ok .undefined := by rfl

example : jsFalsy .undefined = true := by rfl

/-! ### Oracle pipeline (`backend` validation service, `triggerValidation`)

The pipeline drives external services: GEE authentication and
initialization, Earth Engine collection-size queries and thumbnail URLs,
HTTP fetches of the two thumbnails, and the Gemini call.  Each external
outcome is a field of `PipelineEnv`; the orchestration, error checks,
verdict parsing and the single conditional ledger submission are embedded
from the source.  A run always resolves (the top-level catch logs and
returns), recording which stages were entered, every ledger submission
performed, and the logged fatal error, if any. -/

/-- Outcomes of the external calls made during one validation attempt. -/
structure PipelineEnv where
  geeInitRes : Except String Unit
  sizesRes : Except String (Nat × Nat)
  recentThumb : Except String String
  historicalThumb : Except String String
  recentFetch : Except String String
  historicalFetch : Except String String
  llmRes : Except String String
  submitRes : Except String String

/-- Stages entered by a pipeline run, in order. -/
inductive Stage
  | geeInit
  | geeFetch
  | llm
  | submit
  deriving DecidableEq, Repr

/-- Promise outcome of `triggerValidation` as seen by a caller. -/
inductive PromiseOutcome
  | resolved
  | rejected (err : String)
  deriving DecidableEq, Repr

/-- Observable result of one `triggerValidation` run: the stages entered,
the `validateFarmPlot` submissions that landed on the ledger (plot id and
farmer key), the error logged by the top-level catch, and the promise
outcome. -/
structure RunResult where
  stages : List Stage
  writes : List (String × String)
  loggedError : Option String
  outcome : PromiseOutcome
  deriving DecidableEq, Repr

/-- `fetchImagesFromGEE` (validation service): query both collection
sizes, throw the NoImagery errors on a zero count (recent first), then
obtain both thumbnail URLs, rejecting on a callback error or a missing
URL.  Saving the thumbnails to disk swallows its own errors and cannot
fail the stage. -/
def fetchImagesFromGEE (env : PipelineEnv) : Except String (String × String) := do
  let sizes ← env.sizesRes
  if sizes.1 = 0 then
    .error "No recent low-cloud Sentinel-2 images found for this region/time window."
  else if sizes.2 = 0 then
    .error "No historical low-cloud Sentinel-2 images found for this region/time window."
  else do
    let recentUrl ← env.recentThumb
    if recentUrl.isEmpty then .error "No recent thumbnail URL returned."
    else do
      let historicalUrl ← env.historicalThumb
      if historicalUrl.isEmpty then .error "No historical thumbnail URL returned."
      else pure (recentUrl, historicalUrl)

/-- Render a verdict-parse error as the message thrown by the source. -/
def verdictErrMsg : VerdictErr → String
  | .unparseable => "LLM response not in expected JSON format and regex extraction failed."
  | .typeError => "TypeError: cannot read properties of null"

/-- `detectDeforestation` (validation service): fetch both images as
base64, obtain the model's text response, then parse the verdict with
`llmParse`; every failure is rethrown to the caller. -/
def detectDeforestation (env : PipelineEnv) : Except String JsOut := do
  let _recentBase64 ← env.recentFetch
  let _historicalBase64 ← env.historicalFetch
  let text ← env.llmRes
  match llmParse text with
  | .ok verdict => pure verdict
  | .error e => .error (verdictErrMsg e)

/-- `triggerValidation` (validation service): initialize GEE, fetch the
imagery, run deforestation detection, and — only when the verdict is
falsy — submit `validateFarmPlot` signed by the validator keypair.  The
polygon is forwarded to the imagery request, whose outcome the
environment supplies.  Every error from any stage is caught by the
single top-level catch, logged, and the promise resolves. -/
def triggerValidation (env : PipelineEnv) (plotId farmerKey : String)
    (_polygonCoordinates : List (List Rat)) : RunResult :=
  match env.geeInitRes with
  | .error e => ⟨[.geeInit], [], some e, .resolved⟩
  | .ok () =>
    match fetchImagesFromGEE env with
    | .error e => ⟨[.geeInit, .geeFetch], [], some e, .resolved⟩
    | .ok _urls =>
      match detectDeforestation env with
      | .error e => ⟨[.geeInit, .geeFetch, .llm], [], some e, .resolved⟩
      | .ok verdict =>
        if jsFalsy verdict then
          match env.submitRes with
          | .ok _tx =>
            ⟨[.geeInit, .geeFetch, .llm, .submit], [(plotId, farmerKey)],
              none, .resolved⟩
          | .error e =>
            ⟨[.geeInit, .geeFetch, .llm, .submit], [], some e, .resolved⟩
        else ⟨[.geeInit, .geeFetch, .llm], [], none, .resolved⟩

/-! ### Intake HTTP handler (`app.post('/initiate-validation')`)

The handler requires the three body fields to be present (JS truthiness:
a missing field or an empty string is falsy; an array is always truthy),
persists the polygon to the plot-data store, and invokes
`triggerValidation` without awaiting it, answering 200 immediately; a
persistence failure answers 500 without invoking the pipeline. -/

/-- Request body of `/initiate-validation`; absent fields are `none`. -/
structure IntakeBody where
  plotId : Option String
  farmerKey : Option String
  polygonCoordinates : Option (List (List Rat))

/-- The intake handler.  Returns the HTTP status and the pipeline run it
started, if any. -/
def initiateValidation (body : IntakeBody) (saveOk : Bool)
    (env : PipelineEnv) : Nat × Option RunResult :=
  match body.plotId, body.farmerKey, body.polygonCoordinates with
  | some plotId, some farmerKey, some polygonCoordinates =>
    if plotId.isEmpty || farmerKey.isEmpty then (400, none)
    else if !saveOk then (500, none)
    else (200, some (triggerValidation env plotId farmerKey polygonCoordinates))
  | _, _, _ => (400, none)

/-! ### Helper lemmas and sample states -/

theorem lookupAcc_cons_self {α : Type} (l : List (Addr × α)) (a : Addr) (v : α) :
    lookupAcc ((a, v) :: l) a = some v := by
  simp [lookupAcc]

theorem lookupAcc_setAcc_self {α : Type} (l : List (Addr × α)) (a : Addr) (v : α)
    (h : (lookupAcc l a).isSome) :
    lookupAcc (setAcc l a v) a = some v := by
  induction l with
  | nil => simp [lookupAcc] at h
  | cons hd tl ih =>
    obtain ⟨b, w⟩ := hd
    by_cases hba : b = a
    · subst hba
      show lookupAcc ((if (b, w).1 = b then (b, v) else (b, w)) :: setAcc tl b v) b =
        some v
      rw [if_pos rfl]
      simp [lookupAcc]
    · have h' : (lookupAcc tl a).isSome := by
        simpa [lookupAcc, hba] using h
      show lookupAcc ((if (b, w).1 = a then (a, v) else (b, w)) :: setAcc tl a v) a =
        some v
      rw [if_neg hba]
      simpa [lookupAcc, hba] using ih h'

/-- Sample plot used by the concrete witnesses (data from the test suite). -/
def samplePlot : FarmPlot :=
  { plotId := "PLOT-TEST-001"
    farmer := 1
    farmerName := "Silva Cocoa Farm"
    location := "Aboisso"
    coordinates := "5.3599,-4.0083"
    areaHectares := 5 / 2
    commodityType := .cocoa
    registrationTimestamp := 1700000000
    deforestationRisk := .low
    complianceScore := 100
    lastVerified := 1700000000
    isActive := true
    isValidated := false
    validator := 42 }

/-- Sample batch used by the concrete witnesses. -/
def sampleBatch : HarvestBatch :=
  { batchId := "BATCH-TEST-001"
    farmPlot := .farmPlot "PLOT-TEST-001" 1
    farmer := 1
    weightKg := 500
    harvestTimestamp := 1700000100
    commodityType := .cocoa
    status := .harvested
    complianceStatus := .compliant
    destination := "" }

/-- Sample ledger holding the sample plot and batch. -/
def sampleLedger : Ledger :=
  { plots := [(.farmPlot "PLOT-TEST-001" 1, samplePlot)]
    batches := [(.harvestBatch "BATCH-TEST-001" 1, sampleBatch)]
    verifications := [] }

/-- Sample ledger whose batch has already reached the Delivered stage. -/
def sampleLedgerDelivered : Ledger :=
  { sampleLedger with
    batches := [(.harvestBatch "BATCH-TEST-001" 1,
      { sampleBatch with status := .delivered })] }

/-- Pipeline environment in which every external call succeeds and the
model answers with the given text. -/
def envAllOk (text : String) : PipelineEnv :=
  { geeInitRes := .ok ()
    sizesRes := .ok (3, 4)
    recentThumb := .ok "https://earthengine/recent"
    historicalThumb := .ok "https://earthengine/historical"
    recentFetch := .ok "recentBase64"
    historicalFetch := .ok "historicalBase64"
    llmRes := .ok text
    submitRes := .ok "txsig" }

/-! ### Claim theorems -/

/-- C4 counterexample: the test suite's verification-PDA derivation
truncates the timestamp to its first 8 decimal digits, so the two
distinct timestamps 1700000000 and 1700000001 (same plot key, same
verifier key) derive identical seed lists — the claimed "distinct
timestamps yield distinct addresses" is false for this derivation. -/
theorem c4_timestamp_truncation_collision :
    verificationSeedsTest (List.replicate 32 7) (List.replicate 32 9) 1700000000 =
      verificationSeedsTest (List.replicate 32 7) (List.replicate 32 9) 1700000001 ∧
    (1700000000 : Nat) ≠ 1700000001 := by
  refine ⟨by decide, by decide⟩

/-- C4 (amended): the frontend derivations are deterministic and
injective at the seed level — `farmPlotSeeds` distinguishes distinct
(plot id, farmer) pairs, and the frontend `verificationPDA` seeds (with
the full 8-byte little-endian timestamp) distinguish any change of plot
key, verifier, or timestamp below 2^64.  The test suite's decimal
truncation (see the counterexample) is excluded from the injectivity
guarantee. -/
theorem c4_frontend_derivation_injective :
    (∀ id id' : String, ∀ f f' : List Nat,
        farmPlotSeeds id f = farmPlotSeeds id' f' → id = id' ∧ f = f') ∧
    (∀ k k' v v' : List Nat, ∀ t t' : Nat, t < 2 ^ 64 → t' < 2 ^ 64 →
        verificationSeeds k v t = verificationSeeds k' v' t' →
        k = k' ∧ v = v' ∧ t = t') := by
  constructor
  · intro id id' f f' h
    injection h with h1 h2
    injection h2 with h2 h3
    injection h3 with h3 h4
    exact ⟨strBytes_injective h2, h3⟩
  · intro k k' v v' t t' ht ht' h
    injection h with h1 h2
    injection h2 with h2 h3
    injection h3 with h3 h4
    injection h4 with h4 h5
    exact ⟨h2, h3, bnToArrayLE8_injOn ht ht' h4⟩

/-- Witness for the C4 theorem at concrete inputs. -/
theorem c4_frontend_derivation_injective_witness :
    (1700000000 : Nat) < 2 ^ 64 ∧
      (([1] : List Nat) = [1] ∧ ([2] : List Nat) = [2] ∧
        (1700000000 : Nat) = 1700000000) := by
  refine ⟨by norm_num, ?_⟩
  exact c4_frontend_derivation_injective.2 [1] [1] [2] [2] 1700000000 1700000000
    (by norm_num) (by norm_num) rfl

/-- C2 (spec-modelled, the on-chain handler is absent from the sources):
`validateFarmPlot` succeeds exactly when the transaction signer equals
the validator authority stored on the plot at registration; on success
the plot's `isValidated` becomes true; any other signer fails with the
authorization error and leaves the ledger — in particular the
`isValidated` flag — unchanged. -/
theorem c2_validate_authority_gate (st : Ledger) (plotAddr : Addr)
    (signer : PubKey) (p : FarmPlot)
    (hp : lookupAcc st.plots plotAddr = some p) :
    ((validateFarmPlot st plotAddr signer).2 = none ↔ signer = p.validator) ∧
    (signer = p.validator →
      lookupAcc (validateFarmPlot st plotAddr signer).1.plots plotAddr =
        some { p with isValidated := true }) ∧
    (signer ≠ p.validator →
      validateFarmPlot st plotAddr signer = (st, some .unauthorized)) := by
  by_cases hs : signer = p.validator
  · refine ⟨by simp [validateFarmPlot, hp, hs], fun _ => ?_, fun hn => absurd hs hn⟩
    simp only [validateFarmPlot, hp, if_pos hs]
    exact lookupAcc_setAcc_self st.plots plotAddr _ (by simp [hp])
  · exact ⟨by simp [validateFarmPlot, hp, hs], fun h => absurd h hs,
      fun _ => by simp [validateFarmPlot, hp, hs]⟩

/-- Witness for the C2 theorem on the sample ledger: the designated
validator succeeds (and flips `isValidated`), a different signer fails
`Unauthorized` with the state unchanged. -/
theorem c2_validate_authority_gate_witness :
    lookupAcc sampleLedger.plots (.farmPlot "PLOT-TEST-001" 1) = some samplePlot ∧
    ((validateFarmPlot sampleLedger (.farmPlot "PLOT-TEST-001" 1) 42).2 = none ↔
      (42 : PubKey) = samplePlot.validator) ∧
    validateFarmPlot sampleLedger (.farmPlot "PLOT-TEST-001" 1) 99 =
      (sampleLedger, some .unauthorized) := by
  have hp : lookupAcc sampleLedger.plots (.farmPlot "PLOT-TEST-001" 1) =
      some samplePlot := rfl
  refine ⟨hp, ?_, ?_⟩
  · exact (c2_validate_authority_gate sampleLedger (.farmPlot "PLOT-TEST-001" 1)
      42 samplePlot hp).1
  · exact (c2_validate_authority_gate sampleLedger (.farmPlot "PLOT-TEST-001" 1)
      99 samplePlot hp).2.2 (by decide)

/-- C3 (spec-modelled, the on-chain handler is absent from the sources):
every successful `recordSatelliteVerification` creates the verification
record and, in the same returned state, rewrites the referenced plot:
a no-deforestation finding sets risk Low and score 100, a deforestation
finding sets risk High and score 0, and `lastVerified` becomes the
verification timestamp. -/
theorem c3_verification_updates_plot (st st' : Ledger) (plotId : String)
    (farmer verifier : PubKey) (hash : String) (noDefo : Bool) (ts : Int)
    (h : recordSatelliteVerification st plotId farmer verifier hash noDefo ts =
      .ok st') :
    ∃ p p', lookupAcc st.plots (.farmPlot plotId farmer) = some p ∧
      lookupAcc st'.plots (.farmPlot plotId farmer) = some p' ∧
      (noDefo = true →
        p'.deforestationRisk = .low ∧ p'.complianceScore = 100) ∧
      (noDefo = false →
        p'.deforestationRisk = .high ∧ p'.complianceScore = 0) ∧
      p'.lastVerified = ts ∧
      lookupAcc st'.verifications (.verification plotId farmer verifier ts) =
        some { verificationHash := hash, noDeforestation := noDefo,
               recordedAt := ts } := by
  unfold recordSatelliteVerification at h
  rcases hp : lookupAcc st.plots (.farmPlot plotId farmer) with _ | p <;>
    simp only [hp] at h
  · exact Except.noConfusion h
  · by_cases hdup :
        (lookupAcc st.verifications
          (.verification plotId farmer verifier ts)).isSome
    · rw [if_pos hdup] at h
      exact Except.noConfusion h
    · rw [if_neg hdup] at h
      injection h with h
      subst h
      refine ⟨p, _, rfl,
        lookupAcc_setAcc_self st.plots _ _ (by simp [hp]), ?_, ?_, rfl,
        lookupAcc_cons_self _ _ _⟩
      · intro hn
        subst hn
        simp
      · intro hn
        subst hn
        simp

/-- Witness for the C3 theorem: a concrete no-deforestation verification
on the sample ledger yields a plot with risk Low and score 100 and
creates the record. -/
theorem c3_verification_updates_plot_witness :
    ∃ st', recordSatelliteVerification sampleLedger "PLOT-TEST-001" 1 5
        "QmXYZ123" true 1700000200 = .ok st' ∧
      ∃ p p', lookupAcc sampleLedger.plots (.farmPlot "PLOT-TEST-001" 1) =
          some p ∧
        lookupAcc st'.plots (.farmPlot "PLOT-TEST-001" 1) = some p' ∧
        (true = true → p'.deforestationRisk = .low ∧ p'.complianceScore = 100) ∧
        (true = false → p'.deforestationRisk = .high ∧ p'.complianceScore = 0) ∧
        p'.lastVerified = 1700000200 ∧
        lookupAcc st'.verifications (.verification "PLOT-TEST-001" 1 5 1700000200) =
          some { verificationHash := "QmXYZ123", noDeforestation := true,
                 recordedAt := 1700000200 } := by
  refine ⟨_, rfl, ?_⟩
  exact c3_verification_updates_plot sampleLedger _ "PLOT-TEST-001" 1 5
    "QmXYZ123" true 1700000200 rfl

/-- C5 counterexample: registering a fresh plot on an empty ledger
already yields `complianceScore = 100` and `deforestationRisk = Low`
(the values the test suite asserts immediately after registration), so
registration does grant full compliance standing, contradicting the
claimed "complianceScore unset/neutral, deforestationRisk unset". -/
theorem c5_registration_grants_compliance :
    (registerFarmPlot ⟨[], [], []⟩ 1 42 "PLOT-TEST-001" "Silva Cocoa Farm"
        "Aboisso" "5.3599,-4.0083" 3 .cocoa 1700000000).map
      (fun st' => (lookupAcc st'.plots (.farmPlot "PLOT-TEST-001" 1)).map
        (fun p => (p.complianceScore, p.deforestationRisk, p.isValidated))) =
      .ok (some (100, .low, false)) := by
  rfl

/-- C5 (amended, spec- and test-modelled): every successful
`registerFarmPlot` creates the plot with `isValidated = false` and
`isActive = true`, but with `complianceScore` initialized to 100 and
`deforestationRisk` to Low — full compliance standing is granted at
registration, per the repository's test assertions. -/
theorem c5_registration_defaults (st st' : Ledger) (farmer validator : PubKey)
    (plotId farmerName location coordinates : String) (area : Rat)
    (commodity : CommodityType) (ts : Int)
    (h : registerFarmPlot st farmer validator plotId farmerName location
      coordinates area commodity ts = .ok st') :
    ∃ p, lookupAcc st'.plots (.farmPlot plotId farmer) = some p ∧
      p.isValidated = false ∧ p.isActive = true ∧
      p.complianceScore = 100 ∧ p.deforestationRisk = .low ∧
      p.validator = validator ∧ p.lastVerified = ts := by
  unfold registerFarmPlot at h
  by_cases h1 : plotId.length > maxIdLen
  · rw [if_pos h1] at h
    exact Except.noConfusion h
  · rw [if_neg h1] at h
    by_cases h2 : area ≤ 0
    · rw [if_pos h2] at h
      exact Except.noConfusion h
    · rw [if_neg h2] at h
      by_cases h3 : (lookupAcc st.plots (.farmPlot plotId farmer)).isSome
      · rw [if_pos h3] at h
        exact Except.noConfusion h
      · rw [if_neg h3] at h
        injection h with h
        subst h
        exact ⟨_, lookupAcc_cons_self _ _ _, rfl, rfl, rfl, rfl, rfl, rfl⟩

/-- Witness for the C5 amended theorem at a concrete registration. -/
theorem c5_registration_defaults_witness :
    ∃ p, lookupAcc
        (Ledger.plots ⟨[(.farmPlot "P1" 3,
          { plotId := "P1", farmer := 3, farmerName := "F", location := "L",
            coordinates := "C", areaHectares := 1, commodityType := .soy,
            registrationTimestamp := 7, deforestationRisk := .low,
            complianceScore := 100, lastVerified := 7, isActive := true,
            isValidated := false, validator := 8 })], [], []⟩)
        (.farmPlot "P1" 3) = some p ∧
      p.isValidated = false ∧ p.isActive = true ∧
      p.complianceScore = 100 ∧ p.deforestationRisk = .low ∧
      p.validator = 8 ∧ p.lastVerified = 7 := by
  have h := c5_registration_defaults ⟨[], [], []⟩ _ 3 8 "P1" "F" "L" "C" 1 .soy 7 rfl
  simpa using h

/-- C7 (spec-modelled, the on-chain handler is absent from the sources):
`generateDdsData` is a read returning a fully-populated report whose
fields equal the corresponding fields of the source batch and plot
accounts, with `noDeforestationVerified` holding exactly when the plot's
current risk is Low; when either address fails to resolve it fails with
`NotFound` and no report is produced. -/
theorem c7_dds_join_correct (st : Ledger) (batchAddr plotAddr : Addr) :
    (∀ b p, lookupAcc st.batches batchAddr = some b →
      lookupAcc st.plots plotAddr = some p →
      ∃ r, generateDdsData st batchAddr plotAddr = .ok r ∧
        r.batchId = b.batchId ∧ r.plotId = p.plotId ∧ r.farmer = p.farmer ∧
        r.coordinates = p.coordinates ∧ r.commodityType = p.commodityType ∧
        r.harvestTimestamp = b.harvestTimestamp ∧ r.weightKg = b.weightKg ∧
        (r.noDeforestationVerified = true ↔ p.deforestationRisk = .low) ∧
        r.complianceScore = p.complianceScore ∧
        r.lastVerified = p.lastVerified ∧
        r.registrationTimestamp = p.registrationTimestamp) ∧
    ((lookupAcc st.batches batchAddr = none ∨
        lookupAcc st.plots plotAddr = none) →
      generateDdsData st batchAddr plotAddr = .error .notFound) := by
  constructor
  · intro b p hb hp
    simp only [generateDdsData, hb, hp]
    refine ⟨_, rfl, rfl, rfl, rfl, rfl, rfl, rfl, rfl, by simp, rfl, rfl, rfl⟩
  · intro hmiss
    unfold generateDdsData
    rcases hmiss with hb | hp
    · rw [hb]
    · rcases hbb : lookupAcc st.batches batchAddr with _ | b
      · rfl
      · rw [hp]

/-- Witness for the C7 theorem on the sample ledger. -/
theorem c7_dds_join_correct_witness :
    ∃ r, generateDdsData sampleLedger (.harvestBatch "BATCH-TEST-001" 1)
        (.farmPlot "PLOT-TEST-001" 1) = .ok r ∧
      r.batchId = sampleBatch.batchId ∧ r.plotId = samplePlot.plotId ∧
      r.farmer = samplePlot.farmer ∧
      r.coordinates = samplePlot.coordinates ∧
      r.commodityType = samplePlot.commodityType ∧
      r.harvestTimestamp = sampleBatch.harvestTimestamp ∧
      r.weightKg = sampleBatch.weightKg ∧
      (r.noDeforestationVerified = true ↔
        samplePlot.deforestationRisk = .low) ∧
      r.complianceScore = samplePlot.complianceScore ∧
      r.lastVerified = samplePlot.lastVerified ∧
      r.registrationTimestamp = samplePlot.registrationTimestamp :=
  (c7_dds_join_correct sampleLedger (.harvestBatch "BATCH-TEST-001" 1)
    (.farmPlot "PLOT-TEST-001" 1)).1 sampleBatch samplePlot rfl rfl

/-- C9 counterexample: on a ledger whose batch has already reached
Delivered, `updateBatchStatus` back to Harvested succeeds and leaves the
batch at a status strictly earlier in the Harvested → Processing →
InTransit → Delivered order, refuting the claimed forward-only
progression. -/
theorem c9_status_regression_accepted :
    (updateBatchStatus sampleLedgerDelivered "BATCH-TEST-001" 1 .harvested
        "Back to the farm").map
      (fun st' => (lookupAcc st'.batches
        (.harvestBatch "BATCH-TEST-001" 1)).map (fun b => b.status)) =
      .ok (some .harvested) ∧
    BatchStatus.idx .harvested < BatchStatus.idx .delivered := by
  exact ⟨rfl, by decide⟩

/-- C9 (amended, spec-modelled): a successful `updateBatchStatus` sets
the batch's status to the requested value unconditionally — the
instruction enforces no forward-only ordering (the IDL declares no
error variant for an out-of-order transition, and the spec records the
guard as unobserved); the observed test sequence merely happens to move
forward. -/
theorem c9_update_status_unconstrained (st : Ledger) (batchId : String)
    (authority : PubKey) (newStatus : BatchStatus) (destination : String)
    (b : HarvestBatch)
    (hb : lookupAcc st.batches (.harvestBatch batchId authority) = some b)
    (hd : ¬destination.length > destinationMaxLen) :
    ∃ st', updateBatchStatus st batchId authority newStatus destination =
        .ok st' ∧
      lookupAcc st'.batches (.harvestBatch batchId authority) =
        some { b with status := newStatus, destination := destination } := by
  simp only [updateBatchStatus, hb]
  rw [if_neg hd]
  exact ⟨_, rfl, lookupAcc_setAcc_self st.batches _ _ (by simp [hb])⟩

/-- Witness for the C9 amended theorem: the concrete Delivered →
Harvested regression of the counterexample, produced by the theorem. -/
theorem c9_update_status_unconstrained_witness :
    ∃ st', updateBatchStatus sampleLedgerDelivered "BATCH-TEST-001" 1
        .harvested "Back to the farm" = .ok st' ∧
      lookupAcc st'.batches (.harvestBatch "BATCH-TEST-001" 1) =
        some { sampleBatch with
                status := BatchStatus.harvested
                destination := "Back to the farm" } := by
  have h := c9_update_status_unconstrained sampleLedgerDelivered
    "BATCH-TEST-001" 1 .harvested "Back to the farm"
    { sampleBatch with status := .delivered } rfl (by decide)
  simpa using h

theorem getProp_ne_unparseable (v : Json) (k : String) :
    getProp v k ≠ .error .unparseable := by
  cases v <;> simp [getProp]

theorem matchDefoAt_values (s : List Char) (w : String)
    (h : matchDefoAt s = some w) : w = "true" ∨ w = "false" := by
  unfold matchDefoAt at h
  rcases hm : matchToken ("\"deforestationDetected\":".toList) s with _ | r <;>
    simp only [hm] at h
  · exact Option.noConfusion h
  · split at h
    · exact Or.inl (Option.some.inj h).symm
    · split at h
      · exact Or.inr (Option.some.inj h).symm
      · exact Option.noConfusion h

theorem scanFirst_prop {α : Type} (f : List Char → Option α) (P : α → Prop)
    (hf : ∀ s a, f s = some a → P a) :
    ∀ s a, scanFirst f s = some a → P a := by
  intro s
  induction s with
  | nil =>
    intro a h
    exact hf [] a (by simpa [scanFirst] using h)
  | cons c rest ih =>
    intro a h
    unfold scanFirst at h
    rcases hfc : f (c :: rest) with _ | b <;> simp only [hfc] at h
    · exact ih a h
    · exact Option.some.inj h ▸ hf (c :: rest) b hfc

/-- C8: the verdict parser of `detectDeforestation` first runs
`JSON.parse` on the fence-cleaned text; it returns the `UnparseableVerdict`
failure exactly when that parse fails and the two-field regex fallback
(on the original text) fails too; when the JSON parse succeeds with a
boolean `deforestationDetected` field the parsed boolean is returned, and
when the fallback succeeds the boolean written at the matched position
(necessarily the literal `true` or `false`) is returned. -/
theorem c8_verdict_parse_cascade (text : String) :
    (llmParse text = .error .unparseable ↔
      (Json.parse (cleanLlmText text) = none ∧
        (deforestationMatch text = none ∨ explanationMatch text = none))) ∧
    (∀ v b, Json.parse (cleanLlmText text) = some v →
      getProp v "deforestationDetected" = .ok (.val (.bool b)) →
      llmParse text = .ok (.val (.bool b))) ∧
    (∀ w e, Json.parse (cleanLlmText text) = none →
      deforestationMatch text = some w → explanationMatch text = some e →
      llmParse text = .ok (.val (.bool (w == "true"))) ∧
        (w = "true" ∨ w = "false")) := by
  refine ⟨⟨?_, ?_⟩, ?_, ?_⟩
  · intro h
    unfold llmParse at h
    rcases hj : Json.parse (cleanLlmText text) with _ | v <;>
      simp only [hj] at h
    · refine ⟨rfl, ?_⟩
      rcases hd : deforestationMatch text with _ | w
      · exact Or.inl rfl
      · rcases he : explanationMatch text with _ | e
        · exact Or.inr rfl
        · rw [hd, he] at h
          exact Except.noConfusion h
    · exact absurd h (getProp_ne_unparseable v _)
  · rintro ⟨hj, hor⟩
    unfold llmParse
    simp only [hj]
    rcases hd : deforestationMatch text with _ | w
    · rfl
    · rcases hor with h1 | h2
      · rw [h1] at hd
        exact Option.noConfusion hd
      · rw [h2]
  · intro v b hj hg
    unfold llmParse
    simp only [hj]
    exact hg
  · intro w e hj hdm hem
    refine ⟨?_, ?_⟩
    · unfold llmParse
      simp only [hj, hdm, hem]
    · exact scanFirst_prop matchDefoAt (fun w => w = "true" ∨ w = "false")
        matchDefoAt_values text.toList w hdm

/-- Witness for the C8 theorem: a fenced JSON response with
`deforestationDetected: false` parses to the boolean false through the
JSON branch of the cascade. -/
theorem c8_verdict_parse_cascade_witness :
    llmParse "```json\n\x7b\"deforestationDetected\": false, \"explanation\": \"ok\"\x7d\n```" =
      .ok (.val (.bool false)) :=
  (c8_verdict_parse_cascade _).2.1
    (.obj [("deforestationDetected", .bool false), ("explanation", .str "ok")])
    false rfl rfl

theorem fetchImages_error_of_no_historical (env : PipelineEnv) (n : Nat)
    (hn : env.sizesRes = .ok (n, 0)) :
    ∃ e, fetchImagesFromGEE env = .error e := by
  unfold fetchImagesFromGEE
  rw [hn]
  rcases n with _ | m
  · exact ⟨_, rfl⟩
  · exact ⟨_, rfl⟩

/-- C1 counterexample: with every external call succeeding and the model
answering valid JSON that lacks the `deforestationDetected` field, the
parsed verdict is `undefined` — which is not the boolean false — yet the
pipeline performs the `validateFarmPlot` ledger submission (JS `!verdict`
is true for `undefined`), refuting "a ledger mutation occurs only when
the inference verdict has deforestationDetected == false". -/
theorem c1_write_on_undefined_verdict :
    (triggerValidation (envAllOk "\x7b\"a\": 1\x7d") "PLOT-1" "FARMER"
        [[0, 0], [1, 1], [2, 2]]).writes = [("PLOT-1", "FARMER")] ∧
    llmParse "\x7b\"a\": 1\x7d" = .ok .undefined ∧
    (∀ b : Bool, JsOut.undefined ≠ JsOut.val (.bool b)) :=
  ⟨rfl, rfl, fun _ h => JsOut.noConfusion h⟩

/-- C1 (amended): the pipeline submits `validateFarmPlot` only at the
final stage and only when every earlier stage succeeded, the parsed
verdict is JS-falsy (in particular when it is the boolean false, but
also for `undefined`, null, 0 or the empty string), and the submission
itself succeeds; if GEE initialization, either imagery query (including
a zero-candidate historical window), the artifact fetch / verdict parse,
or the submission throws — or the verdict is truthy — the run performs
zero ledger writes. -/
theorem c1_commit_only_final_falsy (env : PipelineEnv)
    (plotId farmerKey : String) (poly : List (List Rat)) :
    ((triggerValidation env plotId farmerKey poly).writes ≠ [] →
      ∃ urls verdict tx, env.geeInitRes = .ok () ∧
        fetchImagesFromGEE env = .ok urls ∧
        detectDeforestation env = .ok verdict ∧ jsFalsy verdict = true ∧
        env.submitRes = .ok tx ∧
        (triggerValidation env plotId farmerKey poly).writes =
          [(plotId, farmerKey)] ∧
        (triggerValidation env plotId farmerKey poly).stages =
          [.geeInit, .geeFetch, .llm, .submit]) ∧
    (∀ e, env.geeInitRes = .error e →
      (triggerValidation env plotId farmerKey poly).writes = []) ∧
    (∀ e, fetchImagesFromGEE env = .error e →
      (triggerValidation env plotId farmerKey poly).writes = []) ∧
    (∀ n, env.sizesRes = .ok (n, 0) →
      (triggerValidation env plotId farmerKey poly).writes = []) ∧
    (∀ e, detectDeforestation env = .error e →
      (triggerValidation env plotId farmerKey poly).writes = []) ∧
    (∀ verdict, detectDeforestation env = .ok verdict →
      jsFalsy verdict = false →
      (triggerValidation env plotId farmerKey poly).writes = []) ∧
    (∀ e, env.submitRes = .error e →
      (triggerValidation env plotId farmerKey poly).writes = []) := by
  rcases hg : env.geeInitRes with e0 | u
  · refine ⟨?_, ?_, ?_, ?_, ?_, ?_, ?_⟩ <;> simp [triggerValidation, hg]
  · obtain rfl : u = () := rfl
    rcases hf : fetchImagesFromGEE env with e1 | urls
    · refine ⟨?_, ?_, ?_, ?_, ?_, ?_, ?_⟩ <;> simp [triggerValidation, hg, hf]
    · rcases hd : detectDeforestation env with e2 | verdict
      · refine ⟨?_, ?_, ?_, ?_, ?_, ?_, ?_⟩ <;>
          simp [triggerValidation, hg, hf, hd]
      · cases hfal : jsFalsy verdict
        · refine ⟨?_, ?_, ?_, ?_, ?_, ?_, ?_⟩ <;>
            simp [triggerValidation, hg, hf, hd, hfal]
        · rcases hs : env.submitRes with e3 | tx
          · refine ⟨?_, ?_, ?_, ?_, ?_, ?_, ?_⟩ <;>
              simp [triggerValidation, hg, hf, hd, hfal, hs]
          · refine ⟨?_, ?_, ?_, ?_, ?_, ?_, ?_⟩
            · intro _
              exact ⟨urls, verdict, tx, rfl, rfl, rfl, hfal, rfl,
                by simp [triggerValidation, hg, hf, hd, hfal, hs],
                by simp [triggerValidation, hg, hf, hd, hfal, hs]⟩
            · intro e he
              exact Except.noConfusion he
            · intro e he
              exact Except.noConfusion he
            · intro n hn
              obtain ⟨e, he⟩ := fetchImages_error_of_no_historical env n hn
              rw [hf] at he
              exact Except.noConfusion he
            · intro e he
              exact Except.noConfusion he
            · intro v hv hvf
              obtain rfl := Except.ok.inj hv
              rw [hfal] at hvf
              exact Bool.noConfusion hvf
            · intro e he
              exact Except.noConfusion he

/-- Witness for the C1 theorem: a truthy (deforestation-detected)
verdict with every external call succeeding yields zero ledger writes. -/
theorem c1_commit_only_final_falsy_witness :
    (triggerValidation
      (envAllOk "\x7b\"deforestationDetected\": true, \"explanation\": \"loss\"\x7d")
      "PLOT-1" "FARMER" [[0, 0], [1, 1], [2, 2]]).writes = [] :=
  (c1_commit_only_final_falsy
    (envAllOk "\x7b\"deforestationDetected\": true, \"explanation\": \"loss\"\x7d")
    "PLOT-1" "FARMER" [[0, 0], [1, 1], [2, 2]]).2.2.2.2.2.1
    (.val (.bool true)) rfl rfl

/-- C6 counterexample: a request whose polygon has only two vertices is
accepted by the intake handler (which checks only field presence) and
runs the whole pipeline — GEE initialization, imagery fetch, inference
and even the ledger submission — refuting "if the polygon has fewer than
3 vertices it fails fast with MalformedInput and performs none of the
later stages". -/
theorem c6_short_polygon_runs_pipeline :
    (initiateValidation ⟨some "PLOT-1", some "FARMER", some [[0, 0], [1, 1]]⟩
        true
        (envAllOk "\x7b\"deforestationDetected\": false, \"explanation\": \"ok\"\x7d")) =
      (200, some ⟨[.geeInit, .geeFetch, .llm, .submit],
        [("PLOT-1", "FARMER")], none, .resolved⟩) ∧
    ([[0, 0], [1, 1]] : List (List Rat)).length < 3 :=
  ⟨rfl, by norm_num⟩

/-- C6 (amended): neither the intake handler nor the pipeline validates
the vertex count, and there is no MalformedInput failure path: for a
fixed environment of external outcomes the pipeline's behavior does not
depend on the polygon at all, and the intake handler starts the pipeline
exactly when the three body fields are present (with nonempty id and key
strings) and the polygon was persisted — regardless of how many vertices
the polygon has. -/
theorem c6_no_vertex_validation :
    (∀ env plotId farmerKey poly poly',
      triggerValidation env plotId farmerKey poly =
        triggerValidation env plotId farmerKey poly') ∧
    (∀ body saveOk env,
      (initiateValidation body saveOk env).2.isSome ↔
        ∃ pid fk poly, body.plotId = some pid ∧ body.farmerKey = some fk ∧
          body.polygonCoordinates = some poly ∧ pid.isEmpty = false ∧
          fk.isEmpty = false ∧ saveOk = true) := by
  constructor
  · intro env plotId farmerKey poly poly'
    rfl
  · intro body saveOk env
    obtain ⟨op, ofk, oc⟩ := body
    constructor
    · intro h
      rcases op with _ | pid
      · simp [initiateValidation] at h
      · rcases ofk with _ | fk
        · simp [initiateValidation] at h
        · rcases oc with _ | poly
          · simp [initiateValidation] at h
          · by_cases hpe : pid.isEmpty
            · simp [initiateValidation, hpe] at h
            · by_cases hfe : fk.isEmpty
              · simp [initiateValidation, hpe, hfe] at h
              · rcases saveOk with _ | _
                · simp [initiateValidation, hpe, hfe] at h
                · exact ⟨pid, fk, poly, rfl, rfl, rfl,
                    Bool.not_eq_true _ ▸ hpe, Bool.not_eq_true _ ▸ hfe, rfl⟩
    · rintro ⟨pid, fk, poly, h1, h2, h3, h4, h5, h6⟩
      cases h1
      cases h2
      cases h3
      subst h6
      simp [initiateValidation, h4, h5]

theorem triggerValidation_resolves (env : PipelineEnv)
    (plotId farmerKey : String) (poly : List (List Rat)) :
    (triggerValidation env plotId farmerKey poly).outcome = .resolved := by
  rcases hg : env.geeInitRes with e0 | u
  · simp [triggerValidation, hg]
  · obtain rfl : u = () := rfl
    rcases hf : fetchImagesFromGEE env with e1 | urls
    · simp [triggerValidation, hg, hf]
    · rcases hd : detectDeforestation env with e2 | verdict
      · simp [triggerValidation, hg, hf, hd]
      · cases hfal : jsFalsy verdict
        · simp [triggerValidation, hg, hf, hd, hfal]
        · rcases hs : env.submitRes with e3 | tx <;>
            simp [triggerValidation, hg, hf, hd, hfal, hs]

/-- C10: `triggerValidation` never rejects — for every combination of
stage outcomes (including a failing ledger submission) the returned
promise resolves, so no caller can observe a pipeline failure through
the promise; in particular every pipeline run started (without awaiting)
by the intake handler resolves.  Failures are observable only through
the logged error, present exactly when some stage threw. -/
theorem c10_trigger_validation_never_rejects (env : PipelineEnv)
    (plotId farmerKey : String) (poly : List (List Rat)) :
    (triggerValidation env plotId farmerKey poly).outcome = .resolved ∧
    ((∃ e, (triggerValidation env plotId farmerKey poly).loggedError =
        some e) ↔
      ((∃ e, env.geeInitRes = .error e) ∨
       (∃ e, fetchImagesFromGEE env = .error e) ∨
       (∃ e, detectDeforestation env = .error e) ∨
       ((∃ v, detectDeforestation env = .ok v ∧ jsFalsy v = true) ∧
         ∃ e, env.submitRes = .error e))) ∧
    (∀ body saveOk r, (initiateValidation body saveOk env).2 = some r →
      r.outcome = .resolved) := by
  refine ⟨triggerValidation_resolves env plotId farmerKey poly, ?_, ?_⟩
  · rcases hg : env.geeInitRes with e0 | u
    · simp [triggerValidation, hg]
    · obtain rfl : u = () := rfl
      rcases hf : fetchImagesFromGEE env with e1 | urls
      · simp [triggerValidation, hg, hf]
      · rcases hd : detectDeforestation env with e2 | verdict
        · simp [triggerValidation, hg, hf, hd]
        · cases hfal : jsFalsy verdict
          · simp [triggerValidation, hg, hf, hd, hfal]
          · rcases hs : env.submitRes with e3 | tx
            · constructor
              · intro _
                exact Or.inr (Or.inr (Or.inr ⟨⟨verdict, rfl, hfal⟩, e3, rfl⟩))
              · intro _
                simp [triggerValidation, hg, hf, hd, hfal, hs]
            · simp [triggerValidation, hg, hf, hd, hfal, hs]
  · intro body saveOk r h
    obtain ⟨op, ofk, oc⟩ := body
    rcases op with _ | pid
    · simp [initiateValidation] at h
    · rcases ofk with _ | fk
      · simp [initiateValidation] at h
      · rcases oc with _ | poly'
        · simp [initiateValidation] at h
        · by_cases hpe : pid.isEmpty
          · simp [initiateValidation, hpe] at h
          · by_cases hfe : fk.isEmpty
            · simp [initiateValidation, hpe, hfe] at h
            · rcases saveOk with _ | _
              · simp [initiateValidation, hpe, hfe] at h
              · simp [initiateValidation, hpe, hfe] at h
                rw [← h]
                exact triggerValidation_resolves env pid fk poly'

/-- Witness for the C10 theorem: the run started by the intake handler
for a concrete request resolves. -/
theorem c10_trigger_validation_never_rejects_witness :
    (triggerValidation (envAllOk "nonsense") "PLOT-1" "FARMER"
      [[0, 0], [1, 1], [2, 2]]).outcome = .resolved :=
  (c10_trigger_validation_never_rejects (envAllOk "nonsense") "PLOT-1"
    "FARMER" [[0, 0], [1, 1], [2, 2]]).2.2
    ⟨some "PLOT-1", some "FARMER", some [[0, 0], [1, 1], [2, 2]]⟩ true _ rfl
